import Mathlib

/-!
Shallow embedding of `src/bokehfun.py`, a bokeh visualization adapter for
astronomical light curves and target-pixel-file (TPF) cubes, together with
proofs of the specification claims about it.

Modelling conventions:
* Python/numpy floats are modelled as `ℚ` (exact data values) with `Option ℚ`
  where a cell may be NaN (`none` = NaN).  Quantities that the code sends
  through `log10`/`10**` live in `ℝ`.
* numpy arrays of known rank are modelled either as nested lists (when the
  code builds them elementwise) or as dimensions plus an indexing function
  (for the flux cube).
* Fallible execution (the unresolved Python name `KeplerQualityFlags`) is
  modelled with `Except`.
-/

/-- Value of one time sample: `none` models IEEE NaN, `some q` a real time. -/
abbrev TVal := Option ℚ

/-- LightCurve-like input: parallel arrays of time, flux, cadence number and
quality bitmask, plus the ISO-8601 strings `lc.astropy_time.isot` produced by
the external astropy collaborator for the same time array. -/
structure LightCurve where
  time : List TVal
  flux : List ℚ
  cadenceno : List ℤ
  quality : List ℕ
  astropy_isot : List String

/-- IEEE-style equality on possibly-NaN values: any comparison with NaN is
false, mirroring Python `lc.time == lc.time` elementwise. -/
def nanEq (a b : TVal) : Bool :=
  match a, b with
  | some x, some y => decide (x = y)
  | _, _ => false

/-- Embeds `(lc.time == lc.time).all()` from line 27 of the source. -/
def timesSelfEqAll (ts : List TVal) : Bool :=
  (ts.zipWith nanEq ts).all id

/-- One appended quality string for a decoded flag list, following the three
mutually exclusive `if` statements at lines 36-41 of the source. -/
def qualAppend (acc : List String) (flag_str_list : List String) : List String :=
  let acc := if flag_str_list.length = 0 then acc ++ [" "] else acc
  let acc := if flag_str_list.length = 1 then acc ++ [flag_str_list.headD ""] else acc
  if flag_str_list.length > 1 then acc ++ [String.intercalate "; " flag_str_list] else acc

/-- Tooltip table built by `prepare_lightcurve_datasource` (the bokeh
`ColumnDataSource` columns at lines 43-49). -/
structure LcSource where
  time : List TVal
  time_iso : List String
  flux : List ℚ
  cadence : List ℤ
  quality_code : List ℕ
  quality : List String

/-- Embeds `prepare_lightcurve_datasource` (lines 15-50).  The quality-flag
decoding collaborator `KeplerQualityFlags.decode` is not defined in the module
(see `moduleScope` below); here it is passed explicitly as `decode`, the
intended external collaborator mapping a bitmask to its flag names. -/
def prepare_lightcurve_datasource (decode : ℕ → List String) (lc : LightCurve) :
    LcSource :=
  let human_time : List String :=
    if timesSelfEqAll lc.time then lc.astropy_isot
    else List.replicate lc.flux.length " "
  let qual_strings : List String :=
    lc.quality.foldl (fun acc bitmask => qualAppend acc (decode bitmask)) []
  { time := lc.time
    time_iso := human_time
    flux := lc.flux
    cadence := lc.cadenceno
    quality_code := lc.quality
    quality := qual_strings }

/-- Names bound at module level by the imports at lines 1-12 of the source
(plus the three function definitions of the module itself). -/
def moduleScope : List String :=
  ["bokeh", "show", "output_notebook", "push_notebook", "figure",
   "ColumnDataSource", "LogColorMapper", "Selection", "Slider", "RangeSlider",
   "Span", "ColorBar", "LogTicker", "Range1d", "layout", "Spacer", "HoverTool",
   "Button", "Div", "PrintfTickFormatter", "np",
   "prepare_lightcurve_datasource", "prepare_tpf_datasource",
   "make_tpf_figure_elements"]

/-- Value bound to the free name `KeplerQualityFlags` when the loop body at
line 35 is executed: `none` because the name is absent from `moduleScope`
(no import or definition in the module binds it). -/
def keplerQualityFlagsBinding : Option (ℕ → List String) :=
  if "KeplerQualityFlags" ∈ moduleScope then some (fun _ => []) else none

/-- One iteration of the quality-string loop of lines 34-41 as the Python
interpreter executes it: the body first resolves the name
`KeplerQualityFlags`, raising a `NameError` when it is unbound. -/
def qualStep (acc : Except String (List String)) (bitmask : ℕ) :
    Except String (List String) :=
  acc.bind fun l =>
    match keplerQualityFlagsBinding with
    | some decode => .ok (qualAppend l (decode bitmask))
    | none => .error "NameError: name KeplerQualityFlags is not defined"

/-- Runs the quality-string loop of lines 33-41 as the Python interpreter
would (one `qualStep` per bitmask; no iteration for an empty array). -/
def qualStringsRun (quality : List ℕ) : Except String (List String) :=
  quality.foldl qualStep (.ok [])

/-- Embeds the actual execution of `prepare_lightcurve_datasource` in the
module as written, where `KeplerQualityFlags` is an unresolved name. -/
def prepare_lightcurve_datasource_run (lc : LightCurve) :
    Except String LcSource :=
  let human_time : List String :=
    if timesSelfEqAll lc.time then lc.astropy_isot
    else List.replicate lc.flux.length " "
  (qualStringsRun lc.quality).map fun qual_strings =>
    { time := lc.time
      time_iso := human_time
      flux := lc.flux
      cadence := lc.cadenceno
      quality_code := lc.quality
      quality := qual_strings }

/-- TargetPixelFile-like input: a 3D flux cube (frame × row × column, cells
`none` when NaN), the spatial offsets `column`/`row`, and mission metadata. -/
structure TargetPixelFile where
  nframes : ℕ
  nrows : ℕ
  ncols : ℕ
  fluxAt : ℕ → ℕ → ℕ → Option ℚ
  column : ℤ
  row : ℤ
  mission : String
  module : ℤ
  output : ℤ
  camera : ℤ
  ccd : ℤ

/-- Pixel-overlay table built by `prepare_tpf_datasource`: the bokeh
`ColumnDataSource` data columns `xx`/`yy` and its `Selection.indices`. -/
structure TPFSource where
  xx : List (List ℚ)
  yy : List (List ℚ)
  selectedIndices : List ℕ

/-- Embeds `prepare_tpf_datasource` (lines 53-75): `pixel_index_array` is
`arange(npix).reshape(frame0.shape)`, so cell `(i, j)` holds `i*ncols + j`;
boolean indexing `pixel_index_array[aperture_mask]` enumerates the `true`
cells in row-major order; `xa, ya = meshgrid(column + arange(ncols),
row + arange(nrows))` shifted by `0.5` give the pixel-center columns. -/
def prepare_tpf_datasource (tpf : TargetPixelFile)
    (aperture_mask : ℕ → ℕ → Bool) : TPFSource :=
  let pixel_index : ℕ → ℕ → ℕ := fun i j => i * tpf.ncols + j
  let preselected : List ℕ :=
    (List.range tpf.nrows).flatMap fun i =>
      (List.range tpf.ncols).filterMap fun j =>
        if aperture_mask i j then some (pixel_index i j) else none
  let xx : List (List ℚ) :=
    (List.range tpf.nrows).map fun _ =>
      (List.range tpf.ncols).map fun (j : ℕ) => (tpf.column : ℚ) + (j : ℚ) + 1/2
  let yy : List (List ℚ) :=
    (List.range tpf.nrows).map fun (i : ℕ) =>
      (List.range tpf.ncols).map fun _ => (tpf.row : ℚ) + (i : ℚ) + 1/2
  { xx := xx, yy := yy, selectedIndices := preselected }

/-- Result of the numpy indexing expression `tpf.flux[fiducial_frame, :, :]`:
a 2D frame for an integer index, a 4D newaxis view for index `None`. -/
inductive NpImg where
  | img2d (nrows ncols : ℕ) (cell : ℕ → ℕ → Option ℚ)
  | img4d (n0 n1 n2 n3 : ℕ) (cell : ℕ → ℕ → ℕ → ℕ → Option ℚ)

/-- Embeds `tpf.flux[fiducial_frame, :, :] + pedestal` (line 123).  When
`fiducial_frame` is the Python default `None`, numpy treats `None` as
`np.newaxis`, producing a 4D view of shape `(1, nframes, nrows, ncols)` of
the whole cube rather than selecting a frame. -/
def fiducialImage (tpf : TargetPixelFile) (fiducial_frame : Option ℕ)
    (pedestal : ℚ) : NpImg :=
  match fiducial_frame with
  | some k => .img2d tpf.nrows tpf.ncols fun i j =>
      (tpf.fluxAt k i j).map (· + pedestal)
  | none => .img4d 1 tpf.nframes tpf.nrows tpf.ncols fun w f i j =>
      if w = 0 then (tpf.fluxAt f i j).map (· + pedestal) else none

/-- Finite (non-NaN) flux values of the cube, flattened in row-major order;
this is the data `np.nanmin` and `np.nanpercentile` operate over. -/
def finiteFluxList (tpf : TargetPixelFile) : List ℚ :=
  (List.range tpf.nframes).flatMap fun f =>
    (List.range tpf.nrows).flatMap fun i =>
      (List.range tpf.ncols).filterMap fun j => tpf.fluxAt f i j

/-- Minimum of a list of rationals, `none` for the empty list. -/
def listMin : List ℚ → Option ℚ
  | [] => none
  | x :: xs => some (xs.foldl min x)

/-- Embeds `np.nanmin(tpf.flux)`: the minimum over non-NaN cells (`none`,
i.e. a NaN result, when the cube has no finite cell). -/
def nanminFlux (tpf : TargetPixelFile) : Option ℚ :=
  listMin (finiteFluxList tpf)

/-- Insertion of a value into a sorted list of rationals. -/
def insertSorted (x : ℚ) : List ℚ → List ℚ
  | [] => [x]
  | y :: ys => if x ≤ y then x :: y :: ys else y :: insertSorted x ys

/-- Ascending sort of a list of rationals (insertion sort). -/
def sortRats (l : List ℚ) : List ℚ :=
  l.foldr insertSorted []

/-- Embeds `np.nanpercentile(data, q)` with numpy's default linear
interpolation: on the ascending sort `s` of the finite data of length `n`,
the percentile at `q` is `s[⌊pos⌋] + (pos - ⌊pos⌋) * (s[⌊pos⌋+1] - s[⌊pos⌋])`
where `pos = q/100 * (n-1)`; `none` (NaN) when there is no finite datum. -/
def percentileLinear (data : List ℚ) (q : ℚ) : Option ℚ :=
  let s := sortRats data
  if s.length = 0 then none
  else
    let n := s.length
    let pos : ℚ := q / 100 * ((n : ℚ) - 1)
    let i : ℕ := (⌊pos⌋).toNat
    let frac : ℚ := pos - (i : ℚ)
    let a := s.getD i 0
    let b := s.getD (min (i + 1) (n - 1)) 0
    some (a + frac * (b - a))

/-- Shifted data `tpf.flux + pedestal` as seen by `np.nanpercentile`
(line 119): NaN cells stay NaN and are ignored, finite cells are shifted. -/
def shiftedFluxList (tpf : TargetPixelFile) (pedestal : ℚ) : List ℚ :=
  (List.range tpf.nframes).flatMap fun f =>
    (List.range tpf.nrows).flatMap fun i =>
      (List.range tpf.ncols).filterMap fun j =>
        (tpf.fluxAt f i j).map (· + pedestal)

/-- Embeds the pedestal default of lines 99-100: the explicit argument when
given, otherwise `-np.nanmin(tpf.flux) + 1` (NaN when the cube has no
finite cell). -/
def resolvePedestal (tpf : TargetPixelFile) (pedestal0 : Option ℚ) :
    Option ℚ :=
  match pedestal0 with
  | some p => some p
  | none => (nanminFlux tpf).map fun m => -m + 1

/-- Finite data of `tpf.flux + pedestal` fed to `np.nanpercentile`; when the
pedestal itself is NaN every shifted cell is NaN, leaving no finite data. -/
def percentileData (tpf : TargetPixelFile) (pedestal : Option ℚ) : List ℚ :=
  match pedestal with
  | some p => shiftedFluxList tpf p
  | none => []

/-- Figure state assembled by `make_tpf_figure_elements`: the resolved
pedestal, the figure title, the image handed to `fig.image` with its
position and extent, the four percentiles, the initial `LogColorMapper`
bounds, and whether a selection-rectangle glyph was added.  Fields are
`Option`-valued where the source would propagate NaN. -/
structure TPFFigureElements where
  pedestal : Option ℚ
  title : String
  image : Option NpImg
  imageX : ℤ
  imageY : ℤ
  dw : ℕ
  dh : ℕ
  vlo : Option ℚ
  lo : Option ℚ
  hi : Option ℚ
  vhi : Option ℚ
  colorMapperLow : Option ℚ
  colorMapperHigh : Option ℚ
  hasRect : Bool

/-- Embeds `make_tpf_figure_elements` (lines 79-168) up to the slider and
callback, which are modelled separately below. -/
def make_tpf_figure_elements (tpf : TargetPixelFile)
    (tpf_source : Option TPFSource) (pedestal0 : Option ℚ)
    (fiducial_frame : Option ℕ) : TPFFigureElements :=
  let pedestal : Option ℚ := resolvePedestal tpf pedestal0
  let title : String :=
    if tpf.mission ∈ (["Kepler", "K2"] : List String) then
      "Pixel data (CCD " ++ toString tpf.module ++ "." ++ toString tpf.output ++ ")"
    else if tpf.mission = "TESS" then
      "Pixel data (Camera " ++ toString tpf.camera ++ "." ++ toString tpf.ccd ++ ")"
    else
      "Pixel data"
  let shifted : List ℚ := percentileData tpf pedestal
  let vlo := percentileLinear shifted (1/5)
  let lo := percentileLinear shifted 1
  let hi := percentileLinear shifted 95
  let vhi := percentileLinear shifted (499/5)
  { pedestal := pedestal
    title := title
    image := pedestal.map (fiducialImage tpf fiducial_frame)
    imageX := tpf.column
    imageY := tpf.row
    dw := tpf.ncols
    dh := tpf.nrows
    vlo := vlo, lo := lo, hi := hi, vhi := vhi
    colorMapperLow := lo
    colorMapperHigh := hi
    hasRect := tpf_source.isSome }

/-- RangeSlider state: full extent `start`/`stop`, step, and initial value. -/
structure RangeSliderState where
  start : ℝ
  stop : ℝ
  step : ℝ
  value : ℝ × ℝ

/-- Embeds the `RangeSlider(...)` construction at lines 148-159 (and the
`vstep` computation at line 120), in log10 space; `none` when any of the
percentiles is NaN. -/
noncomputable def stretchSliderOf (e : TPFFigureElements) :
    Option RangeSliderState :=
  match e.vlo, e.lo, e.hi, e.vhi with
  | some vlo, some lo, some hi, some vhi =>
      some { start := Real.logb 10 vlo
             stop := Real.logb 10 vhi
             step := (Real.logb 10 vhi - Real.logb 10 vlo) / 300
             value := (Real.logb 10 lo, Real.logb 10 hi) }
  | _, _, _, _ => none

/-- Live bounds of the `LogColorMapper` attached to the figure image. -/
structure LogColorMapperState where
  low : ℝ
  high : ℝ

/-- Embeds `stretch_change_callback` (lines 161-164): on a slider value
change it overwrites the color mapper's `high` with `10**new[1]` and `low`
with `10**new[0]`, independently of the mapper's prior state. -/
noncomputable def stretch_change_callback (mapper : LogColorMapperState)
    (attr : String) (old new : ℝ × ℝ) : LogColorMapperState :=
  { high := (10 : ℝ) ^ new.2
    low := (10 : ℝ) ^ new.1 }

/-- Discriminator: does a numpy indexing result denote a single 2D frame? -/
def NpImg.isFrame2d : NpImg → Bool
  | .img2d _ _ _ => true
  | .img4d _ _ _ _ _ => false

/-- Closed form of the quality-string appended per bitmask by the three `if`
statements at lines 36-41. -/
def qualEntry (l : List String) : String :=
  if l.length = 0 then " "
  else if l.length = 1 then l.headD ""
  else String.intercalate "; " l

/-- Sample decoder standing in for the external flag-decoding collaborator:
bitmask 0 has no flags, 1 one flag, anything else two flags. -/
def decodeW : ℕ → List String :=
  fun b => if b = 0 then [] else if b = 1 then ["Flag1"] else ["Flag1", "Flag2"]

/-- Sample light curve with no NaN time value. -/
def lcA : LightCurve :=
  { time := [some 1, some 2]
    flux := [5, 6]
    cadenceno := [100, 101]
    quality := [0, 1, 2]
    astropy_isot := ["2019-01-01T00:00:00.000", "2019-01-02T00:00:00.000"] }

/-- Sample light curve with one NaN time value. -/
def lcB : LightCurve :=
  { time := [some 1, none, some 3]
    flux := [5, 6, 7]
    cadenceno := [100, 101, 102]
    quality := [0]
    astropy_isot := ["a", "b", "c"] }

/-- Sample light curve with an empty quality array. -/
def lcE : LightCurve :=
  { time := [some 1]
    flux := [5]
    cadenceno := [100]
    quality := []
    astropy_isot := ["a"] }

/-- Sample 2-frame 1×1 TESS cube used to exercise the default
`fiducial_frame=None` path. -/
def tpfC2 : TargetPixelFile :=
  { nframes := 2, nrows := 1, ncols := 1
    fluxAt := fun f _ _ => some (if f = 0 then 1 else 2)
    column := 0, row := 0
    mission := "TESS", module := 0, output := 0, camera := 1, ccd := 1 }

/-- Sample 1-frame 2×3 cube at column offset 10, row offset 20 (the worked
example of the specification). -/
def tpfC5 : TargetPixelFile :=
  { nframes := 1, nrows := 2, ncols := 3
    fluxAt := fun _ _ _ => some 1
    column := 10, row := 20
    mission := "Kepler", module := 2, output := 1, camera := 0, ccd := 0 }

/-- Aperture mask `[[true,false,true],[false,true,false]]` of the worked
example. -/
def maskC5 : ℕ → ℕ → Bool :=
  fun i j => (i + j) % 2 = 0

/-- Sample 1-frame 1×2 cube with flux values 0 and 2. -/
def tpfC8 : TargetPixelFile :=
  { nframes := 1, nrows := 1, ncols := 2
    fluxAt := fun _ _ j => some (if j = 0 then 0 else 2)
    column := 0, row := 0
    mission := "X", module := 0, output := 0, camera := 0, ccd := 0 }

/-- Sample Kepler cube (metadata only matters for the title). -/
def tpfKepler : TargetPixelFile :=
  { tpfC8 with mission := "Kepler", module := 2, output := 1 }

/-- Sample TESS cube (metadata only matters for the title). -/
def tpfTESS : TargetPixelFile :=
  { tpfC8 with mission := "TESS", camera := 3, ccd := 4 }

theorem nanEq_self (t : TVal) : nanEq t t = t.isSome := by
  cases t <;> simp [nanEq]

theorem timesSelfEqAll_eq (ts : List TVal) :
    timesSelfEqAll ts = ts.all Option.isSome := by
  induction ts with
  | nil => rfl
  | cons t ts ih =>
      simp only [timesSelfEqAll, List.zipWith_cons_cons, List.all_cons,
        List.all_eq_true, id] at ih ⊢
      rw [nanEq_self t]
      simp only [Bool.and_eq_true, ih]

/-- C9: the figure title is "Pixel data (CCD {module}.{output})" for the
Kepler and K2 missions, "Pixel data (Camera {camera}.{ccd})" for TESS, and
the generic "Pixel data" for every other mission string. -/
theorem make_tpf_figure_elements_title (tpf : TargetPixelFile)
    (src : Option TPFSource) (p0 : Option ℚ) (ff : Option ℕ) :
    (tpf.mission = "Kepler" ∨ tpf.mission = "K2" →
      (make_tpf_figure_elements tpf src p0 ff).title =
        "Pixel data (CCD " ++ toString tpf.module ++ "." ++
          toString tpf.output ++ ")") ∧
    (tpf.mission = "TESS" →
      (make_tpf_figure_elements tpf src p0 ff).title =
        "Pixel data (Camera " ++ toString tpf.camera ++ "." ++
          toString tpf.ccd ++ ")") ∧
    (tpf.mission ≠ "Kepler" → tpf.mission ≠ "K2" → tpf.mission ≠ "TESS" →
      (make_tpf_figure_elements tpf src p0 ff).title = "Pixel data") := by
  refine ⟨fun h => ?_, fun h => ?_, fun h1 h2 h3 => ?_⟩ <;>
    simp only [make_tpf_figure_elements, List.mem_cons, List.mem_singleton,
      List.not_mem_nil, or_false]
  · rw [if_pos h]
  · rcases h' : decide (tpf.mission = "Kepler" ∨ tpf.mission = "K2") with _ | _
    · rw [if_neg (by simpa using h'), if_pos h]
    · have := of_decide_eq_true h'
      rcases this with h' | h' <;> rw [h] at h' <;> simp at h'
  · rw [if_neg (by simp [h1, h2]), if_neg h3]

theorem make_tpf_figure_elements_title_witness :
    (make_tpf_figure_elements tpfKepler none none none).title =
      "Pixel data (CCD " ++ toString tpfKepler.module ++ "." ++
        toString tpfKepler.output ++ ")" ∧
    (make_tpf_figure_elements tpfTESS none none none).title =
      "Pixel data (Camera " ++ toString tpfTESS.camera ++ "." ++
        toString tpfTESS.ccd ++ ")" ∧
    (make_tpf_figure_elements tpfC8 none none none).title = "Pixel data" :=
  ⟨(make_tpf_figure_elements_title tpfKepler none none none).1 (Or.inl rfl),
   (make_tpf_figure_elements_title tpfTESS none none none).2.1 rfl,
   (make_tpf_figure_elements_title tpfC8 none none none).2.2
     (by decide) (by decide) (by decide)⟩

/-- C6: the stretch-slider change handler overwrites the color mapper's low
bound with `10**new[0]` and its high bound with `10**new[1]`, whatever the
mapper's prior state; in particular `new = (1.0, 3.0)` yields bounds
`(10.0, 1000.0)`. -/
theorem stretch_change_callback_sets_bounds (mapper : LogColorMapperState)
    (attr : String) (old new : ℝ × ℝ) :
    (stretch_change_callback mapper attr old new).low = (10 : ℝ) ^ new.1 ∧
    (stretch_change_callback mapper attr old new).high = (10 : ℝ) ^ new.2 ∧
    stretch_change_callback mapper attr old ((1 : ℝ), (3 : ℝ)) =
      { low := 10, high := 1000 } := by
  refine ⟨rfl, rfl, ?_⟩
  have h1 : (10 : ℝ) ^ (1 : ℝ) = 10 := Real.rpow_one 10
  have h3 : (10 : ℝ) ^ (3 : ℝ) = 1000 := by
    rw [show (3 : ℝ) = ((3 : ℕ) : ℝ) by norm_num, Real.rpow_natCast]
    norm_num
  simp [stretch_change_callback, h1, h3]

/-- C2 (code bug): with the default `fiducial_frame=None`, the expression
`tpf.flux[fiducial_frame, :, :]` is numpy newaxis indexing, so the image
handed to `fig.image` is a 4D view of the whole pedestal-shifted cube, not
the cube's first frame; passing `fiducial_frame=0` explicitly does give the
first frame. -/
theorem default_fiducial_frame_is_not_first_frame :
    (make_tpf_figure_elements tpfC2 none none none).image =
      some (fiducialImage tpfC2 none 0) ∧
    Option.map NpImg.isFrame2d
      (make_tpf_figure_elements tpfC2 none none none).image = some false ∧
    NpImg.isFrame2d (fiducialImage tpfC2 (some 0) 0) = true := by
  refine ⟨?_, rfl, rfl⟩
  show ((nanminFlux tpfC2).map fun m => -m + 1).map (fiducialImage tpfC2 none) =
    some (fiducialImage tpfC2 none 0)
  rw [show nanminFlux tpfC2 = some 1 from rfl]
  show some (fiducialImage tpfC2 none (-1 + 1)) = some (fiducialImage tpfC2 none 0)
  norm_num

theorem range_flatMap_rowMajor (R C : ℕ) :
    (List.range R).flatMap (fun i => (List.range C).map fun j => i * C + j) =
      List.range (R * C) := by
  induction R with
  | zero => simp
  | succ r ih =>
      rw [List.range_succ, List.flatMap_append, ih, Nat.succ_mul,
        List.range_add]
      simp

/-- C4: the initial selection set of the pixel-overlay builder consists of
exactly the flat row-major indices `i*ncols + j` of the cells where the
aperture mask holds; the all-false mask gives the empty selection and the
all-true mask gives `0..nrows*ncols-1`. -/
theorem prepare_tpf_datasource_selection (tpf : TargetPixelFile)
    (mask : ℕ → ℕ → Bool) :
    (∀ k, k ∈ (prepare_tpf_datasource tpf mask).selectedIndices ↔
      ∃ i j, i < tpf.nrows ∧ j < tpf.ncols ∧ mask i j = true ∧
        k = i * tpf.ncols + j) ∧
    (prepare_tpf_datasource tpf (fun _ _ => false)).selectedIndices = [] ∧
    (prepare_tpf_datasource tpf (fun _ _ => true)).selectedIndices =
      List.range (tpf.nrows * tpf.ncols) := by
  refine ⟨fun k => ?_, by simp [prepare_tpf_datasource], ?_⟩
  · simp only [prepare_tpf_datasource, List.mem_flatMap, List.mem_filterMap,
      List.mem_range]
    constructor
    · rintro ⟨i, hi, j, hj, hij⟩
      by_cases h : mask i j
      · rw [if_pos h] at hij
        exact ⟨i, j, hi, hj, h, (Option.some_inj.mp hij).symm⟩
      · rw [if_neg h] at hij
        exact absurd hij (Option.noConfusion)
    · rintro ⟨i, j, hi, hj, hm, rfl⟩
      exact ⟨i, hi, j, hj, by rw [if_pos hm]⟩
  · have hfm : ∀ i : ℕ, (List.range tpf.ncols).filterMap
        (fun j => some (i * tpf.ncols + j)) =
        (List.range tpf.ncols).map fun j => i * tpf.ncols + j := fun i =>
      congrFun (List.filterMap_eq_map fun j => i * tpf.ncols + j) _
    simp only [prepare_tpf_datasource, if_true]
    simp only [hfm]
    exact range_flatMap_rowMajor tpf.nrows tpf.ncols

/-- C5: the pixel-overlay builder's coordinate columns hold pixel centers:
cell `(i, j)` has `x = column + j + 0.5` and `y = row + i + 0.5`. -/
theorem prepare_tpf_datasource_pixel_centers (tpf : TargetPixelFile)
    (mask : ℕ → ℕ → Bool) (i j : ℕ)
    (hi : i < tpf.nrows) (hj : j < tpf.ncols) :
    (((prepare_tpf_datasource tpf mask).xx[i]?).bind fun r => r[j]?) =
      some ((tpf.column : ℚ) + (j : ℚ) + 1/2) ∧
    (((prepare_tpf_datasource tpf mask).yy[i]?).bind fun r => r[j]?) =
      some ((tpf.row : ℚ) + (i : ℚ) + 1/2) := by
  constructor
  · show (((List.range tpf.nrows).map fun _ => (List.range tpf.ncols).map
        fun (j : ℕ) => (tpf.column : ℚ) + (j : ℚ) + 1/2)[i]?).bind
        (fun r => r[j]?) = _
    rw [List.getElem?_map, List.getElem?_range hi]
    show ((List.range tpf.ncols).map
        fun (j : ℕ) => (tpf.column : ℚ) + (j : ℚ) + 1/2)[j]? = _
    rw [List.getElem?_map, List.getElem?_range hj]
    rfl
  · show (((List.range tpf.nrows).map fun (i : ℕ) => (List.range tpf.ncols).map
        fun _ => (tpf.row : ℚ) + (i : ℚ) + 1/2)[i]?).bind
        (fun r => r[j]?) = _
    rw [List.getElem?_map, List.getElem?_range hi]
    show ((List.range tpf.ncols).map
        fun _ => (tpf.row : ℚ) + (i : ℚ) + 1/2)[j]? = _
    rw [List.getElem?_map, List.getElem?_range hj]
    rfl

theorem prepare_tpf_datasource_pixel_centers_witness :
    ((((prepare_tpf_datasource tpfC5 maskC5).xx[1]?).bind fun r => r[2]?) =
      some ((tpfC5.column : ℚ) + ((2 : ℕ) : ℚ) + 1/2) ∧
    (((prepare_tpf_datasource tpfC5 maskC5).yy[1]?).bind fun r => r[2]?) =
      some ((tpfC5.row : ℚ) + ((1 : ℕ) : ℚ) + 1/2)) ∧
    ((((prepare_tpf_datasource tpfC5 maskC5).xx[0]?).bind fun r => r[0]?) =
      some ((tpfC5.column : ℚ) + ((0 : ℕ) : ℚ) + 1/2)) :=
  ⟨prepare_tpf_datasource_pixel_centers tpfC5 maskC5 1 2 (by decide) (by decide),
   (prepare_tpf_datasource_pixel_centers tpfC5 maskC5 0 0
     (by decide) (by decide)).1⟩

theorem foldl_min_le (xs : List ℚ) (x : ℚ) :
    xs.foldl min x ≤ x ∧ ∀ v ∈ xs, xs.foldl min x ≤ v := by
  induction xs generalizing x with
  | nil => exact ⟨le_refl x, by simp⟩
  | cons y ys ih =>
      have h := ih (min x y)
      refine ⟨h.1.trans (min_le_left x y), fun v hv => ?_⟩
      rcases List.mem_cons.mp hv with rfl | hv
      · exact h.1.trans (min_le_right x v)
      · exact h.2 v hv

theorem listMin_le (l : List ℚ) (m : ℚ) (h : listMin l = some m) :
    ∀ v ∈ l, m ≤ v := by
  cases l with
  | nil => cases h
  | cons x xs =>
      obtain rfl : xs.foldl min x = m := by simpa [listMin] using h
      intro v hv
      rcases List.mem_cons.mp hv with rfl | hv
      · exact (foldl_min_le xs v).1
      · exact (foldl_min_le xs x).2 v hv

/-- C7: when `make_tpf_figure_elements` is called with `pedestal=None`, the
pedestal it uses is `-nanmin(flux) + 1`, and with that default every finite
pedestal-shifted flux value is at least 1, hence strictly positive. -/
theorem default_pedestal_positivity (tpf : TargetPixelFile)
    (src : Option TPFSource) (ff : Option ℕ) (m : ℚ)
    (hmin : nanminFlux tpf = some m) :
    (make_tpf_figure_elements tpf src none ff).pedestal = some (-m + 1) ∧
    ∀ v ∈ finiteFluxList tpf, 1 ≤ v + (-m + 1) ∧ 0 < v + (-m + 1) := by
  constructor
  · show (nanminFlux tpf).map (fun m => -m + 1) = some (-m + 1)
    rw [hmin]
    rfl
  · intro v hv
    have hle : m ≤ v := listMin_le _ m hmin v hv
    constructor <;> linarith

theorem default_pedestal_positivity_witness :
    nanminFlux tpfC8 = some 0 ∧
    (make_tpf_figure_elements tpfC8 none none none).pedestal = some (-0 + 1) ∧
    1 ≤ (2 : ℚ) + (-0 + 1) := by
  have h := default_pedestal_positivity tpfC8 none none 0 rfl
  exact ⟨rfl, h.1, (h.2 2 (by decide)).1⟩

/-- C1: the time-string column is all-or-nothing: when no time sample is
NaN it equals the astropy ISO-8601 strings (so any property of those
strings holds of every row), and when at least one time sample is NaN,
every row is the single blank placeholder " ". -/
theorem time_iso_all_or_nothing (decode : ℕ → List String) (lc : LightCurve)
    (P : String → Prop) (hP : ∀ s ∈ lc.astropy_isot, P s) :
    ((∀ t ∈ lc.time, t ≠ none) →
      (prepare_lightcurve_datasource decode lc).time_iso = lc.astropy_isot ∧
      ∀ s ∈ (prepare_lightcurve_datasource decode lc).time_iso, P s) ∧
    ((∃ t ∈ lc.time, t = none) →
      ∀ s ∈ (prepare_lightcurve_datasource decode lc).time_iso, s = " ") := by
  have hiso : (prepare_lightcurve_datasource decode lc).time_iso =
      if timesSelfEqAll lc.time then lc.astropy_isot
      else List.replicate lc.flux.length " " := rfl
  constructor
  · intro h
    have hc : timesSelfEqAll lc.time = true := by
      rw [timesSelfEqAll_eq]
      simp only [List.all_eq_true]
      exact fun t ht => Option.isSome_iff_ne_none.mpr (h t ht)
    rw [hiso, if_pos hc]
    exact ⟨rfl, hP⟩
  · rintro ⟨t, ht, rfl⟩
    have hc : ¬ timesSelfEqAll lc.time = true := by
      rw [timesSelfEqAll_eq]
      simp only [List.all_eq_true, not_forall]
      exact ⟨none, ht, by simp⟩
    rw [hiso, if_neg hc]
    exact fun s hs => List.eq_of_mem_replicate hs

theorem time_iso_all_or_nothing_witness :
    (prepare_lightcurve_datasource decodeW lcA).time_iso = lcA.astropy_isot ∧
    (prepare_lightcurve_datasource decodeW lcB).time_iso.getD 0 "" = " " := by
  constructor
  · exact ((time_iso_all_or_nothing decodeW lcA (fun s => s.length = 23)
      (by decide)).1 (by decide)).1
  · exact (time_iso_all_or_nothing decodeW lcB (fun s => s.length = 1)
      (by decide)).2 ⟨none, by decide, rfl⟩ _ (by decide)

theorem qualAppend_eq (acc : List String) (l : List String) :
    qualAppend acc l = acc ++ [qualEntry l] := by
  rcases l with _ | ⟨a, _ | ⟨b, rest⟩⟩ <;> simp [qualAppend, qualEntry]

theorem foldl_qualAppend (decode : ℕ → List String) (qs : List ℕ)
    (acc : List String) :
    qs.foldl (fun acc bitmask => qualAppend acc (decode bitmask)) acc =
      acc ++ qs.map fun b => qualEntry (decode b) := by
  induction qs generalizing acc with
  | nil => simp
  | cons q qs ih =>
      rw [List.foldl_cons, qualAppend_eq, ih]
      simp

/-- C3: the quality column entry for a bitmask is the single blank space
when the decoder yields no flag names, the flag's name itself when it
yields exactly one, and the names joined by "; " in decoder order when it
yields two or more. -/
theorem quality_strings_join (decode : ℕ → List String) (lc : LightCurve)
    (i : ℕ) (b : ℕ) (hb : lc.quality[i]? = some b) :
    (decode b = [] →
      (prepare_lightcurve_datasource decode lc).quality[i]? = some " ") ∧
    (∀ s, decode b = [s] →
      (prepare_lightcurve_datasource decode lc).quality[i]? = some s) ∧
    (2 ≤ (decode b).length →
      (prepare_lightcurve_datasource decode lc).quality[i]? =
        some (String.intercalate "; " (decode b))) := by
  have hq : (prepare_lightcurve_datasource decode lc).quality =
      lc.quality.map fun b => qualEntry (decode b) := by
    show lc.quality.foldl _ [] = _
    rw [foldl_qualAppend]
    rfl
  have hqi : (prepare_lightcurve_datasource decode lc).quality[i]? =
      some (qualEntry (decode b)) := by
    rw [hq, List.getElem?_map, hb]
    rfl
  refine ⟨fun h => ?_, fun s h => ?_, fun h => ?_⟩
  · rw [hqi, h]
    rfl
  · rw [hqi, h]
    rfl
  · rw [hqi]
    rcases hl : decode b with _ | ⟨a, _ | ⟨c, rest⟩⟩
    · rw [hl] at h
      simp at h
    · rw [hl] at h
      simp at h
    · simp [qualEntry]

theorem quality_strings_join_witness :
    (prepare_lightcurve_datasource decodeW lcA).quality[0]? = some " " ∧
    (prepare_lightcurve_datasource decodeW lcA).quality[1]? = some "Flag1" ∧
    (prepare_lightcurve_datasource decodeW lcA).quality[2]? =
      some "Flag1; Flag2" := by
  refine ⟨(quality_strings_join decodeW lcA 0 0 rfl).1 rfl,
    (quality_strings_join decodeW lcA 1 1 rfl).2.1 "Flag1" rfl, ?_⟩
  have h := (quality_strings_join decodeW lcA 2 2 rfl).2.2 (by decide)
  rw [h]
  rfl

theorem foldl_qualStep_error (qs : List ℕ) (e : String) :
    qs.foldl qualStep (.error e) = .error e := by
  induction qs with
  | nil => rfl
  | cons q qs ih => exact ih

/-- C10: the module never imports or defines `KeplerQualityFlags`, so the
tooltip-table builder raises a `NameError` on every light curve with a
non-empty quality array; only an empty quality array skips the decode call
and produces a datasource (with an empty quality column). -/
theorem missing_decoder_name_error (lc : LightCurve) :
    moduleScope.contains "KeplerQualityFlags" = false ∧
    (lc.quality ≠ [] → prepare_lightcurve_datasource_run lc =
      .error "NameError: name KeplerQualityFlags is not defined") ∧
    (lc.quality = [] → prepare_lightcurve_datasource_run lc =
      .ok { time := lc.time
            time_iso := if timesSelfEqAll lc.time then lc.astropy_isot
              else List.replicate lc.flux.length " "
            flux := lc.flux
            cadence := lc.cadenceno
            quality_code := lc.quality
            quality := [] }) := by
  refine ⟨rfl, fun h => ?_, fun h => ?_⟩
  · show (qualStringsRun lc.quality).map _ = _
    rcases hq : lc.quality with _ | ⟨q, qs⟩
    · exact absurd hq h
    · show (List.foldl qualStep (qualStep (.ok []) q) qs).map _ = _
      rw [show qualStep (Except.ok ([] : List String)) q =
        Except.error "NameError: name KeplerQualityFlags is not defined" from
          rfl]
      rw [foldl_qualStep_error]
      rfl
  · show (qualStringsRun lc.quality).map _ = _
    rw [h]
    rfl

theorem missing_decoder_name_error_witness :
    prepare_lightcurve_datasource_run lcB =
      .error "NameError: name KeplerQualityFlags is not defined" ∧
    prepare_lightcurve_datasource_run lcE =
      .ok { time := lcE.time
            time_iso := if timesSelfEqAll lcE.time then lcE.astropy_isot
              else List.replicate lcE.flux.length " "
            flux := lcE.flux
            cadence := lcE.cadenceno
            quality_code := lcE.quality
            quality := [] } :=
  ⟨(missing_decoder_name_error lcB).2.1 (by decide),
   (missing_decoder_name_error lcE).2.2 rfl⟩

/-- C8: the figure builder takes the 0.2/1/95/99.8 percentiles
`vlo, lo, hi, vhi` of the pedestal-shifted flux, initializes the color
mapper bounds to `(lo, hi)`, and builds the stretch slider with extent
`log10 vlo .. log10 vhi`, initial value `(log10 lo, log10 hi)` and step
`(log10 vhi - log10 vlo) / 300`. -/
theorem percentile_color_slider_wiring (tpf : TargetPixelFile)
    (src : Option TPFSource) (p0 : Option ℚ) (ff : Option ℕ) (p : ℚ)
    (vlo lo hi vhi : ℚ)
    (hp : (make_tpf_figure_elements tpf src p0 ff).pedestal = some p)
    (hvlo : percentileLinear (shiftedFluxList tpf p) (1/5) = some vlo)
    (hlo : percentileLinear (shiftedFluxList tpf p) 1 = some lo)
    (hhi : percentileLinear (shiftedFluxList tpf p) 95 = some hi)
    (hvhi : percentileLinear (shiftedFluxList tpf p) (499/5) = some vhi) :
    (make_tpf_figure_elements tpf src p0 ff).vlo = some vlo ∧
    (make_tpf_figure_elements tpf src p0 ff).lo = some lo ∧
    (make_tpf_figure_elements tpf src p0 ff).hi = some hi ∧
    (make_tpf_figure_elements tpf src p0 ff).vhi = some vhi ∧
    (make_tpf_figure_elements tpf src p0 ff).colorMapperLow = some lo ∧
    (make_tpf_figure_elements tpf src p0 ff).colorMapperHigh = some hi ∧
    stretchSliderOf (make_tpf_figure_elements tpf src p0 ff) =
      some { start := Real.logb 10 (vlo : ℝ)
             stop := Real.logb 10 (vhi : ℝ)
             step := (Real.logb 10 (vhi : ℝ) - Real.logb 10 (vlo : ℝ)) / 300
             value := (Real.logb 10 (lo : ℝ), Real.logb 10 (hi : ℝ)) } := by
  have hped : resolvePedestal tpf p0 = some p := hp
  have hdata : percentileData tpf (resolvePedestal tpf p0) =
      shiftedFluxList tpf p := by
    rw [hped]
    rfl
  have h1 : (make_tpf_figure_elements tpf src p0 ff).vlo = some vlo := by
    show percentileLinear (percentileData tpf (resolvePedestal tpf p0)) (1/5) =
      some vlo
    rw [hdata, hvlo]
  have h2 : (make_tpf_figure_elements tpf src p0 ff).lo = some lo := by
    show percentileLinear (percentileData tpf (resolvePedestal tpf p0)) 1 =
      some lo
    rw [hdata, hlo]
  have h3 : (make_tpf_figure_elements tpf src p0 ff).hi = some hi := by
    show percentileLinear (percentileData tpf (resolvePedestal tpf p0)) 95 =
      some hi
    rw [hdata, hhi]
  have h4 : (make_tpf_figure_elements tpf src p0 ff).vhi = some vhi := by
    show percentileLinear (percentileData tpf (resolvePedestal tpf p0)) (499/5) =
      some vhi
    rw [hdata, hvhi]
  refine ⟨h1, h2, h3, h4, h2, h3, ?_⟩
  simp only [stretchSliderOf, h1, h2, h3, h4]

theorem percentile_color_slider_wiring_witness :
    (make_tpf_figure_elements tpfC8 none none none).vlo =
      some (251/250) ∧
    (make_tpf_figure_elements tpfC8 none none none).lo = some (51/50) ∧
    (make_tpf_figure_elements tpfC8 none none none).hi = some (29/10) ∧
    (make_tpf_figure_elements tpfC8 none none none).vhi = some (749/250) ∧
    (make_tpf_figure_elements tpfC8 none none none).colorMapperLow =
      some (51/50) ∧
    (make_tpf_figure_elements tpfC8 none none none).colorMapperHigh =
      some (29/10) ∧
    stretchSliderOf (make_tpf_figure_elements tpfC8 none none none) =
      some { start := Real.logb 10 ((251/250 : ℚ) : ℝ)
             stop := Real.logb 10 ((749/250 : ℚ) : ℝ)
             step := (Real.logb 10 ((749/250 : ℚ) : ℝ) -
               Real.logb 10 ((251/250 : ℚ) : ℝ)) / 300
             value := (Real.logb 10 ((51/50 : ℚ) : ℝ),
               Real.logb 10 ((29/10 : ℚ) : ℝ)) } := by
  have hp : (make_tpf_figure_elements tpfC8 none none none).pedestal =
      some 1 := by
    show some (-(0 : ℚ) + 1) = some 1
    norm_num
  have hshift : shiftedFluxList tpfC8 1 = [1, 3] := by
    show [(0 : ℚ) + 1, (2 : ℚ) + 1] = [1, 3]
    norm_num
  have hvlo : percentileLinear (shiftedFluxList tpfC8 1) (1/5) =
      some (251/250) := by
    rw [hshift]
    norm_num [percentileLinear, sortRats, insertSorted]
  have hlo : percentileLinear (shiftedFluxList tpfC8 1) 1 = some (51/50) := by
    rw [hshift]
    norm_num [percentileLinear, sortRats, insertSorted]
  have hhi : percentileLinear (shiftedFluxList tpfC8 1) 95 = some (29/10) := by
    rw [hshift]
    norm_num [percentileLinear, sortRats, insertSorted]
  have hvhi : percentileLinear (shiftedFluxList tpfC8 1) (499/5) =
      some (749/250) := by
    rw [hshift]
    norm_num [percentileLinear, sortRats, insertSorted]
  exact percentile_color_slider_wiring tpfC8 none none none 1 (251/250)
    (51/50) (29/10) (749/250) hp hvlo hlo hhi hvhi
